import Mathlib

/-!
Verification of the authentication/session-token flow of the shopery-server
backend (`src/controllers/auth.controller.ts`), against its natural-language
specification.

The five HTTP handlers (`register`, `login`, `logout`, `forgotPassword`,
`changePassword`) are embedded as pure functions over an explicit document
store.  Each handler returns the shaped response (success envelope or the
`ErrorResponse(message, statusCode, errors)` forwarded to `next`), the store
after the call, and a trace of the store operations it performed, in order.

The collaborating services (AuthService, userService, tokenService,
emailService) and the mongoose models are not part of the sources; they are
modelled from the spec where the spec pins down their behaviour, and are
otherwise taken as inputs of the handler (the freshly generated token, the
notification-service outcome), which matches how the controller treats them as
opaque asynchronous calls.

Token documents are schemaless as seen from the controller (the Token
model file is not among the sources), so a token record carries exactly the
fields the controller writes, each optional: on the login path `Token.create`
sets `user` and `expiresAt` (auth.controller.ts lines 106-110), on the
forgot-password path `Token.create` sets `userId` and no expiry (line 172),
and on the login path `Token.findOne` filters on `userId` (lines 93-95).
-/

namespace Shopery

/-- A persisted User document, with the fields `userService.createUser` is
called with (auth.controller.ts lines 46-59) plus the store-assigned id.
The `password` field holds the one-way hash (per the spec the Credential Store
owns password-hash comparison; hashing happens in the persistence layer). -/
structure UserRec where
  id : Nat
  email : String
  password : String
  firstName : String
  lastName : String
  username : String
  userType : String
  role : String
  isUser : Bool
  isGuest : Bool
  isSuper : Bool
  isAdmin : Bool
  isMerchant : Bool
deriving Repr, DecidableEq

/-- A persisted Token document.  Fields are exactly what the controller
writes, each optional because the two `Token.create` call sites pass
different field sets: login writes `user` and `expiresAt`, forgot-password
writes `userId` only.  `expiresAt` is a millisecond timestamp. -/
structure TokenRec where
  user : Option Nat
  userId : Option Nat
  token : String
  expiresAt : Option Nat
deriving Repr, DecidableEq

/-- The external document store: the Credential Store (users) and the Token
Store (tokens), plus the id the store will assign to the next created user. -/
structure DB where
  users : List UserRec
  tokens : List TokenRec
  nextId : Nat
deriving Repr, DecidableEq

/-- One store operation, recorded in the order the handler performs it. -/
inductive Op where
  | findUserByEmail (email : String)
  | findUserById (id : Nat)
  | createUser
  | saveUser
  | findTokenByUserId (id : Nat)
  | saveToken
  | createToken
deriving Repr, DecidableEq

/-- A handler outcome: either the 200 success envelope (status, message) or
the `ErrorResponse(message, statusCode, errors)` forwarded to `next`. -/
inductive HResult where
  | ok (status : Nat) (message : String)
  | err (message : String) (status : Nat) (errors : List String)
deriving Repr, DecidableEq

/-- JavaScript falsiness of an optional request-body string: absent or
empty.  Used for the truthiness checks the controller performs on body
fields (`if (!req.body.email || !req.body.password)`, `if (req.body.email)`). -/
def falsy : Option String → Bool
  | none => true
  | some s => s = ""

/-- JavaScript `toLowerCase()` over the characters of the string (written over
the character list so that it evaluates by kernel reduction). -/
def lowerStr (s : String) : String :=
  String.mk (s.toList.map Char.toLower)

/-- Modelled from the spec: the one-way password hash (the hash algorithm is
not among the sources).  Represented as an injective tagging function; only
match/mismatch of hashes is ever observed. -/
def hashPw (s : String) : String := "#" ++ s

/-- Modelled from the spec: `user.matchPassword` — comparison of a supplied
password against the stored hash via the one-way match operation. -/
def matchPassword (u : UserRec) (pw : String) : Bool :=
  hashPw pw == u.password

/-- Modelled from the spec: `userService.checkPassword`, the password
acceptance policy — must exceed 8 characters and contain at least one
uppercase letter, one digit, and one special (non-alphanumeric) character. -/
def checkPassword (s : String) : Bool :=
  s.length > 8 && s.toList.any Char.isUpper && s.toList.any Char.isDigit
    && s.toList.any (fun c => !c.isAlphanum)

/-- Modelled from the spec: `emailService.validateEmail`, the email format
check of the forgot-password flow.  The exact format rule is not among the
sources; an absent value fails, and a present value must contain an `@`. -/
def validateEmailFormat : Option String → Bool
  | none => false
  | some e => e.toList.contains '@'

/-- Modelled from the spec: `generateRandomChars(n)` produces an `n`-character
string; randomness is irrelevant to every claim, so a fixed placeholder of
the requested length stands in for it. -/
def generateRandomChars (n : Nat) : String :=
  String.mk (List.replicate n 'x')

/-- The user-facing data of a successful login validation, as the controller
reads it: `validate.data.id` and `validate.data.token`.  An empty `token`
models a falsy `validate.data.token`. -/
structure ValidateData where
  id : Nat
  token : String
deriving Repr, DecidableEq

/-- Outcome of `AuthService.validateLogin` as the controller consumes it:
either a failure carrying `validate.code!` and `validate.message`, or a
success carrying `validate.data`. -/
inductive ValidateLoginResult where
  | failure (code : Nat) (message : String)
  | success (data : ValidateData)
deriving Repr, DecidableEq

/-- Modelled from the spec: `AuthService.validateLogin` — validates the
credentials against the Credential Store and on success returns the id of the
matched user plus the freshly generated token (`freshTok`, the token
generation of the service being opaque to the controller); invalid credentials are a
bad-request failure. -/
def validateLogin (email pw freshTok : String) (db : DB) :
    ValidateLoginResult × List Op :=
  match db.users.find? (fun u => u.email == email) with
  | none => (.failure 400 "Invalid credentials", [.findUserByEmail email])
  | some u =>
    if matchPassword u pw then
      (.success ⟨u.id, freshTok⟩, [.findUserByEmail email])
    else
      (.failure 400 "Invalid credentials", [.findUserByEmail email])

/-- `authToken.token = validate.data.token; await authToken.save()` —
in-place update of the token value of the first stored token matching the
`findOne({ userId })` filter (auth.controller.ts lines 97-100). -/
def overwriteTokenValue : List TokenRec → Nat → String → List TokenRec
  | [], _, _ => []
  | t :: ts, uid, tok =>
    if t.userId == some uid then { t with token := tok } :: ts
    else t :: overwriteTokenValue ts uid tok

/-- The login handler from the point where validation has succeeded
(auth.controller.ts lines 93-127): find an existing token by `userId`;
overwrite its value if found, otherwise require a truthy generated token
(else 500) and create a token record with `user` and a one-hour expiry;
then look the user up by id (404 if absent) and respond 200.
`now` is `Date.now()` in milliseconds. -/
def loginCore (now : Nat) (v : ValidateData) (db : DB) :
    HResult × DB × List Op :=
  match db.tokens.find? (fun t => t.userId == some v.id) with
  | some _ =>
    let db1 : DB := { db with tokens := overwriteTokenValue db.tokens v.id v.token }
    match db1.users.find? (fun u => u.id == v.id) with
    | none =>
      (.err "User not found" 404 [], db1,
        [.findTokenByUserId v.id, .saveToken, .findUserById v.id])
    | some _ =>
      (.ok 200 "User login successful", db1,
        [.findTokenByUserId v.id, .saveToken, .findUserById v.id])
  | none =>
    if v.token = "" then
      (.err "Token generation failed" 500 [], db, [.findTokenByUserId v.id])
    else
      let db1 : DB :=
        { db with tokens := db.tokens ++
            [{ user := some v.id, userId := none, token := v.token,
               expiresAt := some (now + 3600 * 1000) }] }
      match db1.users.find? (fun u => u.id == v.id) with
      | none =>
        (.err "User not found" 404 [], db1,
          [.findTokenByUserId v.id, .createToken, .findUserById v.id])
      | some _ =>
        (.ok 200 "User login successful", db1,
          [.findTokenByUserId v.id, .createToken, .findUserById v.id])

/-- The login request body. -/
structure LoginBody where
  email : Option String
  password : Option String
deriving Repr, DecidableEq

/-- The full login handler (auth.controller.ts lines 79-128): reject a
missing email or password with a 400 before any store access, lower-case the
email, validate the credentials, then run the token/lookup/response core.
`freshTok` is the token the Auth Service generates for this call. -/
def login (now : Nat) (body : LoginBody) (freshTok : String) (db : DB) :
    HResult × DB × List Op :=
  if falsy body.email || falsy body.password then
    (.err "Email and password are required" 400 [], db, [])
  else
    let e := lowerStr (body.email.getD "")
    match validateLogin e (body.password.getD "") freshTok db with
    | (.failure code msg, ops) => (.err "Error" code [msg], db, ops)
    | (.success v, ops) =>
      let r := loginCore now v db
      (r.1, r.2.1, ops ++ r.2.2)

/-- The logout handler (auth.controller.ts lines 136-145): responds 200 with
the success envelope, touching nothing. -/
def logout (db : DB) : HResult × DB × List Op :=
  (.ok 200 "User logged out successfully.", db, [])

/-- The registration request body (`RegisterDTO`). -/
structure RegisterBody where
  email : Option String
  password : Option String
  firstName : Option String
  lastName : Option String
deriving Repr, DecidableEq

/-- Outcome of `AuthService.validateRegister` as the controller consumes it. -/
inductive ValidateRegisterResult where
  | failure (code : Nat) (message : String)
  | success
deriving Repr, DecidableEq

/-- Modelled from the spec: `AuthService.validateRegister` — rejects missing
required fields (email, password, names) with a client-error code; duplicate
email detection is a separate explicit check in the handler. -/
def validateRegister (b : RegisterBody) : ValidateRegisterResult :=
  if falsy b.email || falsy b.password || falsy b.firstName || falsy b.lastName
  then .failure 400 "Missing required fields"
  else .success

/-- The register handler (auth.controller.ts lines 21-71).  Note the order
taken from the source: `email`, `password` and the names are destructured
from the body (line 23) BEFORE `req.body.email` is lower-cased in place
(lines 25-27), so validation sees the lower-cased email while the duplicate
lookup (line 35) and the created user (line 49) use the original-case
`email` local.  On success the created user is stored with the
store-assigned id, a 24-character generated username, USER type/role flags,
and the hash of the supplied password (hashing by the persistence layer). -/
def register (b : RegisterBody) (db : DB) : HResult × DB × List Op :=
  let email := b.email
  let password := b.password
  let firstName := b.firstName
  let lastName := b.lastName
  let body1 : RegisterBody := { b with email := b.email.map lowerStr }
  match validateRegister body1 with
  | .failure code msg => (.err "Error" code [msg], db, [])
  | .success =>
    match db.users.find? (fun u => some u.email == email) with
    | some _ =>
      (.err "Error" 403 ["User already exists, use another email"], db,
        [.findUserByEmail (email.getD "")])
    | none =>
      let username := generateRandomChars 24
      let newUser : UserRec :=
        { id := db.nextId
          email := email.getD ""
          password := hashPw (password.getD "")
          firstName := firstName.getD ""
          lastName := lastName.getD ""
          username := username
          userType := "user"
          role := "user"
          isUser := true
          isGuest := false
          isSuper := false
          isAdmin := false
          isMerchant := false }
      (.ok 200 "User registered successfully.",
        { db with users := db.users ++ [newUser], nextId := db.nextId + 1 },
        [.findUserByEmail (email.getD ""), .createUser])

/-- Outcome reported by the Notification Service capability
`sendPasswordForgotEmail`, as the controller consumes it
(`emailResult.error`, `emailResult.code`, `emailResult.message`). -/
structure EmailResult where
  error : Bool
  code : Nat
  message : String
deriving Repr, DecidableEq

/-- The forgot-password handler (auth.controller.ts lines 154-189): validate
the email format (400 on failure), look the user up by email (404 if
absent), create a token record carrying `userId` and the signed reset token
— and no expiry field — then delegate the email send and propagate its
reported code and message on failure, else respond 200.  `resetToken` is the
output of the opaque `tokenService.generateToken({userId, type}, secret,
900)` call and `emailResult` is the outcome the Notification Service reports;
the reset-URL construction is response shaping with no store effect. -/
def forgotPassword (emailField : Option String) (resetToken : String)
    (emailResult : EmailResult) (db : DB) : HResult × DB × List Op :=
  if !validateEmailFormat emailField then
    (.err "Invalid email format." 400 [], db, [])
  else
    match db.users.find? (fun u => some u.email == emailField) with
    | none =>
      (.err "Error" 404 ["User with this email does not exist"], db,
        [.findUserByEmail (emailField.getD "")])
    | some user =>
      let db1 : DB :=
        { db with tokens := db.tokens ++
            [{ user := none, userId := some user.id, token := resetToken,
               expiresAt := none }] }
      if emailResult.error then
        (.err "Error" emailResult.code [emailResult.message], db1,
          [.findUserByEmail (emailField.getD ""), .createToken])
      else
        (.ok 200 "Forgot Password link sent to your email", db1,
          [.findUserByEmail (emailField.getD ""), .createToken])

/-- `user.password = newPassword; await user.save()` — in-place update of
the password of the first stored user with the given id; the persistence
layer hashes on save (spec §4.4), so the stored field becomes the hash. -/
def saveUserPassword : List UserRec → Nat → String → List UserRec
  | [], _, _ => []
  | u :: us, uid, pw =>
    if u.id == uid then { u with password := hashPw pw } :: us
    else u :: saveUserPassword us uid pw

/-- The change-password handler (auth.controller.ts lines 197-234): load the
authenticated user by id (404 if absent), verify the old password via the
one-way match (400 on mismatch), validate the new password against the
acceptance policy (400 with the descriptive message on failure), then assign
and persist the new password. -/
def changePassword (userId : Nat) (oldPassword newPassword : String)
    (db : DB) : HResult × DB × List Op :=
  match db.users.find? (fun u => u.id == userId) with
  | none => (.err "User not found" 404 [], db, [.findUserById userId])
  | some user =>
    if !matchPassword user oldPassword then
      (.err "Old password is incorrect" 400 [], db, [.findUserById userId])
    else if !checkPassword newPassword then
      (.err "password must contain, 1 uppercase letter, one special character, one number and must be greater than 8 characters"
        400 [], db, [.findUserById userId])
    else
      (.ok 200 "Password changed successfully",
        { db with users := saveUserPassword db.users userId newPassword },
        [.findUserById userId, .saveUser])

/-! ## Concrete store contents used by the closed theorems -/

/-- A stored user with correct credentials for the scenarios below. -/
def sampleUser : UserRec :=
  { id := 1
    email := "a@b.com"
    password := hashPw "Secret1!"
    firstName := "Ada"
    lastName := "Lee"
    username := generateRandomChars 24
    userType := "user"
    role := "user"
    isUser := true
    isGuest := false
    isSuper := false
    isAdmin := false
    isMerchant := false }

/-- A store holding exactly that user and no tokens. -/
def sampleDB : DB := { users := [sampleUser], tokens := [], nextId := 2 }

/-- A login request with the correct credentials of the sample user. -/
def sampleLoginBody : LoginBody :=
  { email := some "a@b.com", password := some "Secret1!" }

/-! ## Helper lemmas -/

/-- If some stored token matches the userId filter, the in-place overwrite
leaves a record with that userId whose token value is the new one. -/
theorem overwriteTokenValue_mem (l : List TokenRec) (uid : Nat) (tok : String)
    (h : (l.find? (fun t => t.userId == some uid)).isSome = true) :
    ∃ t ∈ overwriteTokenValue l uid tok, t.userId = some uid ∧ t.token = tok := by
  induction l with
  | nil => simp [List.find?] at h
  | cons a as ih =>
    by_cases ha : a.userId = some uid
    · refine ⟨{ a with token := tok }, ?_, ha, rfl⟩
      simp [overwriteTokenValue, ha]
    · have ha2 : (a.userId == some uid) = false := by
        simpa using ha
      rw [List.find?_cons_of_neg _ (by simpa using ha2)] at h
      obtain ⟨t, ht, hp⟩ := ih h
      exact ⟨t, by simp [overwriteTokenValue, ha2, ht], hp⟩

/-! ## The claims -/

/-- Claim C1 fails on the code: after two consecutive successful logins for
the sample user, the Token store holds TWO records for that user, not one.
The login handler looks an existing token up by the `userId` field but
creates tokens with the `user` field, so the second login never finds the
record the first one created. -/
theorem c1_two_logins_leave_two_token_records :
    (login 1000 sampleLoginBody "tokA" sampleDB).1
      = .ok 200 "User login successful" ∧
    (login 2000 sampleLoginBody "tokB"
        (login 1000 sampleLoginBody "tokA" sampleDB).2.1).1
      = .ok 200 "User login successful" ∧
    (((login 2000 sampleLoginBody "tokB"
        (login 1000 sampleLoginBody "tokA" sampleDB).2.1).2.1).tokens.filter
      (fun t => t.user == some sampleUser.id || t.userId == some sampleUser.id)).length
      = 2 := by
  decide

/-- Claim C2 fails on the code: with the sample user (email a@b.com) already
stored, registering with the same email in different letter case (A@B.com)
succeeds with a 200 and creates a second User record, because the handler
destructures the email local before lower-casing the request body, so the
duplicate lookup and the insert both use the original-case string. -/
theorem c2_mixed_case_register_creates_duplicate :
    (register
        { email := some "A@B.com", password := some "Secret1!",
          firstName := some "Ada", lastName := some "Lee" } sampleDB).1
      = .ok 200 "User registered successfully." ∧
    ((register
        { email := some "A@B.com", password := some "Secret1!",
          firstName := some "Ada", lastName := some "Lee" } sampleDB).2.1).users.length
      = 2 ∧
    lowerStr "A@B.com" = sampleUser.email := by
  decide

/-- Claim C3 is refuted as stated: a successful forgot-password run persists
a Token record whose expiry field is absent, so not every Token record
persisted by the auth flows carries an expiry timestamp. -/
theorem c3_reset_token_record_lacks_expiry :
    (forgotPassword (some "a@b.com") "rt" ⟨false, 0, ""⟩ sampleDB).1
      = .ok 200 "Forgot Password link sent to your email" ∧
    (((forgotPassword (some "a@b.com") "rt" ⟨false, 0, ""⟩ sampleDB).2.1).tokens.map
      (fun t => t.expiresAt)) = [none] := by
  decide

/-- Claim C3 (amended): the Token record created on the no-existing-token
login path carries an expiry timestamp one hour after issuance, while the
reset Token record persisted by forgot-password carries none. -/
theorem c3_login_token_has_expiry_reset_token_does_not :
    (∀ (now : Nat) (v : ValidateData) (db : DB),
      db.tokens.find? (fun t => t.userId == some v.id) = none →
      v.token ≠ "" →
      ((loginCore now v db).2.1).tokens
        = db.tokens ++
          [{ user := some v.id, userId := none, token := v.token,
             expiresAt := some (now + 3600 * 1000) }]) ∧
    (∀ (e resetTok : String) (er : EmailResult) (db : DB) (u : UserRec),
      validateEmailFormat (some e) = true →
      db.users.find? (fun x => some x.email == some e) = some u →
      ((forgotPassword (some e) resetTok er db).2.1).tokens
        = db.tokens ++
          [{ user := none, userId := some u.id, token := resetTok,
             expiresAt := none }]) := by
  constructor
  · intro now v db h1 h2
    simp only [loginCore, h1]
    rw [if_neg h2]
    split <;> rfl
  · intro e resetTok er db u h1 h2
    simp only [forgotPassword, h1, Bool.not_true, Bool.false_eq_true,
      if_false, h2]
    split <;> rfl

/-- Witness for the amended claim C3 at concrete inputs. -/
theorem c3_login_token_has_expiry_reset_token_does_not_witness :
    ((loginCore 0 ⟨1, "tk"⟩ sampleDB).2.1).tokens
      = sampleDB.tokens ++
        [{ user := some 1, userId := none, token := "tk",
           expiresAt := some (0 + 3600 * 1000) }] ∧
    ((forgotPassword (some "a@b.com") "rt" ⟨true, 502, "smtp failure"⟩
        sampleDB).2.1).tokens
      = sampleDB.tokens ++
        [{ user := none, userId := some 1, token := "rt",
           expiresAt := none }] :=
  ⟨c3_login_token_has_expiry_reset_token_does_not.1 0 ⟨1, "tk"⟩ sampleDB
      (by decide) (by decide),
   c3_login_token_has_expiry_reset_token_does_not.2 "a@b.com" "rt"
      ⟨true, 502, "smtp failure"⟩ sampleDB sampleUser (by decide) (by decide)⟩


/-- Claim C4: a changePassword call on an existing user with a wrong old
password, or with a new password violating the acceptance policy, fails with
a 400 carrying a descriptive message and leaves the store unchanged. -/
theorem c4_changePassword_failure_does_not_mutate
    (uid : Nat) (oldPw newPw : String) (db : DB) (u : UserRec)
    (h1 : db.users.find? (fun x => x.id == uid) = some u)
    (h2 : matchPassword u oldPw = false ∨ checkPassword newPw = false) :
    (changePassword uid oldPw newPw db).2.1 = db ∧
    ((changePassword uid oldPw newPw db).1
        = .err "Old password is incorrect" 400 [] ∨
     (changePassword uid oldPw newPw db).1
        = .err "password must contain, 1 uppercase letter, one special character, one number and must be greater than 8 characters"
            400 []) := by
  simp only [changePassword, h1]
  cases hm : matchPassword u oldPw with
  | false => simp
  | true =>
    cases h2 with
    | inl h => rw [hm] at h; cases h
    | inr h => simp [h]

/-- Witness for claim C4: wrong old password for the sample user. -/
theorem c4_changePassword_failure_does_not_mutate_witness :
    (changePassword 1 "wrong" "Abcdefg1!" sampleDB).2.1 = sampleDB ∧
    ((changePassword 1 "wrong" "Abcdefg1!" sampleDB).1
        = .err "Old password is incorrect" 400 [] ∨
     (changePassword 1 "wrong" "Abcdefg1!" sampleDB).1
        = .err "password must contain, 1 uppercase letter, one special character, one number and must be greater than 8 characters"
            400 []) :=
  c4_changePassword_failure_does_not_mutate 1 "wrong" "Abcdefg1!" sampleDB
    sampleUser (by decide) (Or.inl (by decide))

/-- Claim C5: when the Notification Service reports failure, forgot-password
propagates the reported code and message, and the Token record created in
the persist step remains in the store. -/
theorem c5_email_failure_propagates_and_keeps_token
    (e resetTok : String) (er : EmailResult) (db : DB) (u : UserRec)
    (h1 : validateEmailFormat (some e) = true)
    (h2 : db.users.find? (fun x => some x.email == some e) = some u)
    (h3 : er.error = true) :
    forgotPassword (some e) resetTok er db
      = (.err "Error" er.code [er.message],
         { db with tokens := db.tokens ++
             [{ user := none, userId := some u.id, token := resetTok,
                expiresAt := none }] },
         [.findUserByEmail e, .createToken]) := by
  simp only [forgotPassword, h1, Bool.not_true, Bool.false_eq_true, if_false,
    h2]
  rw [if_pos h3]
  rfl

/-- Witness for claim C5 at concrete inputs. -/
theorem c5_email_failure_propagates_and_keeps_token_witness :
    forgotPassword (some "a@b.com") "rt2" ⟨true, 502, "send failed"⟩ sampleDB
      = (.err "Error" 502 ["send failed"],
         { sampleDB with tokens := sampleDB.tokens ++
             [{ user := none, userId := some 1, token := "rt2",
                expiresAt := none }] },
         [.findUserByEmail "a@b.com", .createToken]) :=
  c5_email_failure_propagates_and_keeps_token "a@b.com" "rt2"
    ⟨true, 502, "send failed"⟩ sampleDB sampleUser (by decide) (by decide)
    (by decide)

/-- Claim C6: a login request with an absent (or empty, hence falsy) email
or password field fails with the 400 bad-request error, leaves the store
unchanged, and performs no store operation at all, whatever the store
contents. -/
theorem c6_login_missing_fields_rejected_before_store
    (now : Nat) (body : LoginBody) (freshTok : String) (db : DB)
    (h : falsy body.email = true ∨ falsy body.password = true) :
    login now body freshTok db
      = (.err "Email and password are required" 400 [], db, []) := by
  have hb : (falsy body.email || falsy body.password) = true := by
    cases h with
    | inl h => simp [h]
    | inr h => simp [h]
  simp [login, hb]

/-- Witness for claim C6: a request with no email field. -/
theorem c6_login_missing_fields_rejected_before_store_witness :
    login 0 { email := none, password := some "Secret1!" } "tk" sampleDB
      = (.err "Email and password are required" 400 [], sampleDB, []) :=
  c6_login_missing_fields_rejected_before_store 0
    { email := none, password := some "Secret1!" } "tk" sampleDB
    (Or.inl (by decide))

/-- Claim C7: a forgot-password request whose email passes format validation
but matches no stored user fails with the 404 error, and the store is left
unchanged — in particular no Token record is created. -/
theorem c7_forgot_password_unknown_email_404_no_token
    (e resetTok : String) (er : EmailResult) (db : DB)
    (h1 : validateEmailFormat (some e) = true)
    (h2 : db.users.find? (fun x => some x.email == some e) = none) :
    forgotPassword (some e) resetTok er db
      = (.err "Error" 404 ["User with this email does not exist"], db,
         [.findUserByEmail e]) := by
  simp only [forgotPassword, h1, Bool.not_true, Bool.false_eq_true, if_false,
    h2]
  rfl

/-- Witness for claim C7: an address absent from the sample store. -/
theorem c7_forgot_password_unknown_email_404_no_token_witness :
    forgotPassword (some "z@y.com") "rt" ⟨false, 0, ""⟩ sampleDB
      = (.err "Error" 404 ["User with this email does not exist"], sampleDB,
         [.findUserByEmail "z@y.com"]) :=
  c7_forgot_password_unknown_email_404_no_token "z@y.com" "rt" ⟨false, 0, ""⟩
    sampleDB (by decide) (by decide)

/-- Claim C8: on the login path after successful validation, when no Token
record matches the lookup, the handler fails with the 500 internal error
exactly when the generated token is empty (falsy), and otherwise appends a
new Token record expiring 3600 seconds after issuance time. -/
theorem c8_login_no_token_found_500_iff_empty_else_create
    (now : Nat) (v : ValidateData) (db : DB)
    (h : db.tokens.find? (fun t => t.userId == some v.id) = none) :
    (((loginCore now v db).1 = .err "Token generation failed" 500 [])
        ↔ v.token = "") ∧
    (v.token ≠ "" →
      ((loginCore now v db).2.1).tokens
        = db.tokens ++
          [{ user := some v.id, userId := none, token := v.token,
             expiresAt := some (now + 3600 * 1000) }]) := by
  by_cases ht : v.token = ""
  · constructor
    · simp [loginCore, h, ht]
    · intro h2
      exact absurd ht h2
  · constructor
    · constructor
      · intro hres
        exfalso
        simp only [loginCore, h, if_neg ht] at hres
        split at hres <;> simp at hres
      · intro h0
        exact absurd h0 ht
    · intro _
      simp only [loginCore, h, if_neg ht]
      split <;> rfl

/-- Witness for claim C8: the sample store holds no token for user 1. -/
theorem c8_login_no_token_found_500_iff_empty_else_create_witness :
    (((loginCore 7 ⟨1, "tk"⟩ sampleDB).1 = .err "Token generation failed" 500 [])
        ↔ ("tk" : String) = "") ∧
    (("tk" : String) ≠ "" →
      ((loginCore 7 ⟨1, "tk"⟩ sampleDB).2.1).tokens
        = sampleDB.tokens ++
          [{ user := some 1, userId := none, token := "tk",
             expiresAt := some (7 + 3600 * 1000) }]) :=
  c8_login_no_token_found_500_iff_empty_else_create 7 ⟨1, "tk"⟩ sampleDB
    (by decide)

/-- Claim C9: logout responds 200 with the success envelope, leaves the
store exactly as it was, and performs no store operation. -/
theorem c9_logout_stateless (db : DB) :
    logout db = (.ok 200 "User logged out successfully.", db, []) := rfl

/-- Claim C10: when the token step of the login core has run (an existing
token was overwritten, or a non-empty token was created) and the subsequent
user lookup by id finds no user, the handler responds 404 while the freshly
issued token value is still persisted for that user in the returned store. -/
theorem c10_login_user_vanished_404_keeps_token_side_effect
    (now : Nat) (v : ValidateData) (db : DB)
    (h1 : db.users.find? (fun u => u.id == v.id) = none)
    (h2 : v.token ≠ "" ∨
      (db.tokens.find? (fun t => t.userId == some v.id)).isSome = true) :
    (loginCore now v db).1 = .err "User not found" 404 [] ∧
    ∃ t ∈ ((loginCore now v db).2.1).tokens,
      (t.user = some v.id ∨ t.userId = some v.id) ∧ t.token = v.token := by
  cases hf : db.tokens.find? (fun t => t.userId == some v.id) with
  | some t0 =>
    have hmem := overwriteTokenValue_mem db.tokens v.id v.token
      (by rw [hf]; rfl)
    constructor
    · simp [loginCore, hf, h1]
    · simp only [loginCore, hf, h1]
      obtain ⟨t, htm, hid, htok⟩ := hmem
      exact ⟨t, htm, Or.inr hid, htok⟩
  | none =>
    have ht : v.token ≠ "" := by
      cases h2 with
      | inl h => exact h
      | inr h => rw [hf] at h; simp at h
    constructor
    · simp [loginCore, hf, if_neg ht, h1]
    · simp only [loginCore, hf, if_neg ht, h1]
      exact ⟨_, List.mem_append_right _ (List.mem_singleton_self _),
        Or.inl rfl, rfl⟩

/-- Witness for claim C10: a store that holds a token for user 2 but no
user record with id 2. -/
theorem c10_login_user_vanished_404_keeps_token_side_effect_witness :
    (loginCore 3 ⟨2, "tk"⟩ sampleDB).1 = .err "User not found" 404 [] ∧
    ∃ t ∈ ((loginCore 3 ⟨2, "tk"⟩ sampleDB).2.1).tokens,
      (t.user = some 2 ∨ t.userId = some 2) ∧ t.token = "tk" :=
  c10_login_user_vanished_404_keeps_token_side_effect 3 ⟨2, "tk"⟩ sampleDB
    (by decide) (Or.inl (by decide))

end Shopery
